import Mathlib

/-!
Verification of the esp32-distance firmware core: a shallow embedding of the
distance-sensor measurement pipeline (`distance_sensor.c`) and the WS2812 LED
controller (`led_controller.c`), with theorems settling the specification's
claims about them.

Machine integers are modelled as `Nat` with explicit `% 2^w` at the points
where the C code narrows or can wrap; the signed temperature input is `Int`
with C truncating division.  Stateful C functions become explicit state
passing.  The FreeRTOS queues become bounded lists (front = oldest).
-/

/-! ## Distance sensor: data model (`distance_sensor.h` / `distance_sensor.c`) -/

/-- Status codes of `distance_sensor_error_t`. -/
inductive distance_sensor_error_t where
  | DISTANCE_SENSOR_OK
  | DISTANCE_SENSOR_TIMEOUT
  | DISTANCE_SENSOR_OUT_OF_RANGE
  | DISTANCE_SENSOR_NO_ECHO
  | DISTANCE_SENSOR_INVALID_READING
deriving DecidableEq, Repr

/-- Raw ISR measurement (`distance_raw_measurement_t`): two `uint64_t`
microsecond timestamps plus a status (the ISR always sets `OK`). -/
structure distance_raw_measurement_t where
  echo_start_us : Nat
  echo_end_us : Nat
  status : distance_sensor_error_t
deriving DecidableEq, Repr

/-- Processed measurement (`distance_measurement_t`): `uint16_t distance_mm`,
`uint64_t timestamp_us`, status. -/
structure distance_measurement_t where
  distance_mm : Nat
  timestamp_us : Nat
  status : distance_sensor_error_t
deriving DecidableEq, Repr

/-- EMA filter state: the globals `previous_smoothed_value_mm : uint16_t` and
`smoothing_initialized : bool` of `distance_sensor.c`. -/
structure EmaState where
  previous_smoothed_value_mm : Nat
  smoothing_initialized : Bool
deriving DecidableEq, Repr

/-- `calculate_speed_of_sound_scaled` (distance_sensor.c:216-232).
`speed_m_per_s_scaled = 331300000 + 606 * temperature_c_x10 * 100` in
`int32_t`, then C truncating division by 1000 and a cast to `uint32_t`. -/
def calculate_speed_of_sound_scaled (temperature_c_x10 : Int) : Nat :=
  let speed_m_per_s_scaled : Int := 331300000 + 606 * temperature_c_x10 * 100
  ((speed_m_per_s_scaled.tdiv 1000).emod (2 ^ 32)).toNat

/-- `apply_ema_filter_int` (distance_sensor.c:261-297).  On the first call the
raw value seeds the filter; afterwards
`smoothed_scaled = factor * new + (1000 - factor) * previous` (held in a
`uint32_t`), `smoothed = (uint16_t)(smoothed_scaled / 1000)`, which also
becomes the new `previous_smoothed_value_mm`. -/
def apply_ema_filter_int (smoothing_factor : Nat) (s : EmaState)
    (new_measurement_mm : Nat) : Nat × EmaState :=
  if s.smoothing_initialized = false then
    (new_measurement_mm, ⟨new_measurement_mm, true⟩)
  else
    let smoothed_scaled : Nat :=
      (smoothing_factor * new_measurement_mm +
        (1000 - smoothing_factor) * s.previous_smoothed_value_mm) % 2 ^ 32
    let smoothed : Nat := smoothed_scaled / 1000 % 2 ^ 16
    (smoothed, ⟨smoothed, true⟩)

/-- Distance computation of `distance_sensor_task` (distance_sensor.c:344-351):
`uint64_t` subtraction and multiplication (wrapping mod `2^64`), division by
`2000000`, cast to `uint32_t`, then the narrowing cast to `uint16_t`.
Timestamps are `uint64`, i.e. `< 2^64`. -/
def compute_distance_mm (speed_of_sound_scaled : Nat)
    (raw : distance_raw_measurement_t) : Nat :=
  let echo_duration_us : Nat :=
    (raw.echo_end_us + 2 ^ 64 - raw.echo_start_us) % 2 ^ 64
  let distance_mm_scaled : Nat :=
    (echo_duration_us * speed_of_sound_scaled % 2 ^ 64) / 2000000 % 2 ^ 32
  distance_mm_scaled % 2 ^ 16

/-- Range validation and smoothing step of `distance_sensor_task`
(distance_sensor.c:353-370): out-of-range readings (`< 20mm` or `> 4000mm`)
keep the raw value, get status `OUT_OF_RANGE` and do not touch the filter;
in-range readings are passed through `apply_ema_filter_int`. -/
def process_measurement (smoothing_factor : Nat) (ema : EmaState)
    (distance_mm : Nat) : Nat × distance_sensor_error_t × EmaState :=
  if distance_mm < 20 ∨ distance_mm > 4000 then
    (distance_mm, .DISTANCE_SENSOR_OUT_OF_RANGE, ema)
  else
    let r := apply_ema_filter_int smoothing_factor ema distance_mm
    (r.1, .DISTANCE_SENSOR_OK, r.2)

/-- Publish step of `distance_sensor_task` (distance_sensor.c:378-389 and
409-415): non-blocking `xQueueSend` to the capacity-5 processed queue; if
full, dequeue the oldest, retry the send once and bump the overflow counter.
The queue list is oldest-first. -/
def publish_processed (queue : List distance_measurement_t)
    (overflow_counter : Nat) (processed : distance_measurement_t) :
    List distance_measurement_t × Nat :=
  if queue.length < 5 then
    (queue ++ [processed], overflow_counter)
  else
    match queue with
    | [] => (queue, overflow_counter)
    | _ :: rest => (rest ++ [processed], overflow_counter + 1)

/-- Folding `publish_processed` over a list of readings with no consumer
draining the queue in between. -/
def publish_seq (init : List distance_measurement_t × Nat)
    (ms : List distance_measurement_t) : List distance_measurement_t × Nat :=
  ms.foldl (fun p m => publish_processed p.1 p.2 m) init

/-- Per-cycle state owned by `distance_sensor_task`: the EMA filter state, the
processed queue contents and `queue_overflow_counter`. -/
structure TaskState where
  ema : EmaState
  queue : List distance_measurement_t
  overflow : Nat
deriving DecidableEq, Repr

/-- One iteration of the `distance_sensor_task` loop (distance_sensor.c:
332-420) after the trigger pulse: `input = some raw` is a successful
`xQueueReceive` from the raw queue, `none` is a receive timeout (which
publishes a `TIMEOUT` reading with `distance_mm = 0` stamped with the current
time `now`). -/
def distance_sensor_cycle (speed_of_sound_scaled smoothing_factor now : Nat)
    (st : TaskState) (input : Option distance_raw_measurement_t) : TaskState :=
  match input with
  | some raw_data =>
    let distance_mm := compute_distance_mm speed_of_sound_scaled raw_data
    let r := process_measurement smoothing_factor st.ema distance_mm
    let processed : distance_measurement_t :=
      ⟨r.1, raw_data.echo_end_us, r.2.1⟩
    let p := publish_processed st.queue st.overflow processed
    ⟨r.2.2, p.1, p.2⟩
  | none =>
    let timeout_measurement : distance_measurement_t :=
      ⟨0, now, .DISTANCE_SENSOR_TIMEOUT⟩
    let p := publish_processed st.queue st.overflow timeout_measurement
    ⟨st.ema, p.1, p.2⟩

/-! ## Helper lemmas -/

/-- On a full (length-5) queue a publish evicts exactly the oldest entry,
appends the new reading and increments the overflow counter. -/
lemma publish_processed_full (q : List distance_measurement_t) (cnt : Nat)
    (m : distance_measurement_t) (h : q.length = 5) :
    publish_processed q cnt m = (q.tail ++ [m], cnt + 1) := by
  unfold publish_processed
  rw [if_neg (by omega)]
  cases q with
  | nil => simp at h
  | cons a rest => rfl

/-- Closed form of `publish_processed` for any queue within capacity. -/
lemma publish_processed_le (q : List distance_measurement_t) (cnt : Nat)
    (m : distance_measurement_t) (h : q.length ≤ 5) :
    publish_processed q cnt m =
      (if q.length < 5 then q ++ [m] else q.tail ++ [m],
       if q.length < 5 then cnt else cnt + 1) := by
  by_cases hlt : q.length < 5
  · rw [if_pos hlt, if_pos hlt]
    unfold publish_processed
    rw [if_pos hlt]
  · rw [if_neg hlt, if_neg hlt]
    exact publish_processed_full q cnt m (by omega)

/-! ## Claims C2-C5: numerics and filter behaviour -/

/-- Claim C2 as stated is false at the code: with `echo_start_us = 1000`,
`echo_end_us = 6800` and temperature 200 tenths the task's integer formula
yields 995 mm, which is not within integer-truncation rounding (±1 mm) of the
claimed 993 mm. -/
theorem spec_c2_counterexample :
    compute_distance_mm (calculate_speed_of_sound_scaled 200)
      ⟨1000, 6800, .DISTANCE_SENSOR_OK⟩ = 995 ∧
    ¬(992 ≤ compute_distance_mm (calculate_speed_of_sound_scaled 200)
        ⟨1000, 6800, .DISTANCE_SENSOR_OK⟩ ∧
      compute_distance_mm (calculate_speed_of_sound_scaled 200)
        ⟨1000, 6800, .DISTANCE_SENSOR_OK⟩ ≤ 994) := by
  decide

/-- Claim C2 (amended): with `echo_start_us = 1000`, `echo_end_us = 6800`
(duration 5800 µs) and temperature 200 tenths (20.0 °C) the raw distance
computed by the measurement task's integer formula equals exactly 995 mm
(true value 5800 · 0.343420 / 2 = 995.918 mm, truncated), and the scaled
speed constant equals 343420. -/
theorem spec_c2_amended :
    calculate_speed_of_sound_scaled 200 = 343420 ∧
    compute_distance_mm (calculate_speed_of_sound_scaled 200)
      ⟨1000, 6800, .DISTANCE_SENSOR_OK⟩ = 995 := by
  decide

/-- Claim C3: for every smoothing factor in `[0, 1000]`, every previous
smoothed value and every new measurement (both `uint16_t`), the output of the
initialized EMA filter lies between `min previous new` and `max previous new`
inclusive, despite the truncating division by 1000. -/
theorem spec_c3 (factor prev n : Nat) (hf : factor ≤ 1000)
    (hp : prev < 2 ^ 16) (hn : n < 2 ^ 16) :
    min prev n ≤ (apply_ema_filter_int factor ⟨prev, true⟩ n).1 ∧
    (apply_ema_filter_int factor ⟨prev, true⟩ n).1 ≤ max prev n := by
  have hS : factor * n + (1000 - factor) * prev < 2 ^ 32 := by
    have h1 : factor * n ≤ 1000 * 2 ^ 16 := Nat.mul_le_mul (by omega) (by omega)
    have h2 : (1000 - factor) * prev ≤ 1000 * 2 ^ 16 :=
      Nat.mul_le_mul (by omega) (by omega)
    omega
  have hub : (factor * n + (1000 - factor) * prev) / 1000 ≤ max prev n := by
    have hle : factor * n + (1000 - factor) * prev ≤ 1000 * max prev n := by
      have h1 : factor * n ≤ factor * max prev n :=
        Nat.mul_le_mul_left factor (le_max_right prev n)
      have h2 : (1000 - factor) * prev ≤ (1000 - factor) * max prev n :=
        Nat.mul_le_mul_left (1000 - factor) (le_max_left prev n)
      have h3 : factor * max prev n + (1000 - factor) * max prev n
          = 1000 * max prev n := by
        rw [← Nat.add_mul]
        congr 1
        omega
      omega
    calc (factor * n + (1000 - factor) * prev) / 1000
        ≤ 1000 * max prev n / 1000 := Nat.div_le_div_right hle
      _ = max prev n := Nat.mul_div_cancel_left _ (by norm_num)
  have hlb : min prev n ≤ (factor * n + (1000 - factor) * prev) / 1000 := by
    have hge : 1000 * min prev n ≤ factor * n + (1000 - factor) * prev := by
      have h1 : factor * min prev n ≤ factor * n :=
        Nat.mul_le_mul_left factor (min_le_right prev n)
      have h2 : (1000 - factor) * min prev n ≤ (1000 - factor) * prev :=
        Nat.mul_le_mul_left (1000 - factor) (min_le_left prev n)
      have h3 : factor * min prev n + (1000 - factor) * min prev n
          = 1000 * min prev n := by
        rw [← Nat.add_mul]
        congr 1
        omega
      omega
    have hdiv : 1000 * min prev n / 1000
        ≤ (factor * n + (1000 - factor) * prev) / 1000 :=
      Nat.div_le_div_right hge
    rwa [Nat.mul_div_cancel_left _ (by norm_num)] at hdiv
  have hq : (factor * n + (1000 - factor) * prev) / 1000 < 2 ^ 16 := by
    have := hub
    omega
  have hval : (apply_ema_filter_int factor ⟨prev, true⟩ n).1
      = (factor * n + (1000 - factor) * prev) / 1000 := by
    unfold apply_ema_filter_int
    rw [if_neg (by simp)]
    simp only
    omega
  rw [hval]
  exact ⟨hlb, hub⟩

/-- Witness for C3 at `factor = 300`, `prev = 100`, `n = 200`. -/
theorem spec_c3_witness :
    min 100 200 ≤ (apply_ema_filter_int 300 ⟨100, true⟩ 200).1 ∧
    (apply_ema_filter_int 300 ⟨100, true⟩ 200).1 ≤ max 100 200 :=
  spec_c3 300 100 200 (by decide) (by decide) (by decide)

/-- Claim C4: the first valid (in-range) sample processed after filter
initialization returns exactly the raw value, stores it as the previous
smoothed value and marks the filter initialized. -/
theorem spec_c4 (factor p0 d : Nat) (h1 : 20 ≤ d) (h2 : d ≤ 4000) :
    process_measurement factor ⟨p0, false⟩ d
      = (d, .DISTANCE_SENSOR_OK, ⟨d, true⟩) := by
  unfold process_measurement
  rw [if_neg (by omega)]
  rfl

/-- Witness for C4 at `factor = 300`, initial previous 0, sample 500 mm. -/
theorem spec_c4_witness :
    process_measurement 300 ⟨0, false⟩ 500
      = (500, .DISTANCE_SENSOR_OK, ⟨500, true⟩) :=
  spec_c4 300 0 500 (by decide) (by decide)

/-- Claim C5: an out-of-range sample leaves the filter state unchanged and is
reported raw with status `OUT_OF_RANGE`; concretely, feeding valid 500 mm,
then out-of-range 5000 mm, then valid 520 mm smooths the third sample against
the first (500), not the second. -/
theorem spec_c5 (factor : Nat) (ema : EmaState) (d p0 : Nat)
    (hf : factor ≤ 1000) (hd : d < 20 ∨ d > 4000) :
    process_measurement factor ema d = (d, .DISTANCE_SENSOR_OUT_OF_RANGE, ema) ∧
    process_measurement factor ⟨p0, false⟩ 500
      = (500, .DISTANCE_SENSOR_OK, ⟨500, true⟩) ∧
    process_measurement factor ⟨500, true⟩ 5000
      = (5000, .DISTANCE_SENSOR_OUT_OF_RANGE, ⟨500, true⟩) ∧
    (process_measurement factor ⟨500, true⟩ 520).1
      = (factor * 520 + (1000 - factor) * 500) / 1000 := by
  refine ⟨?_, ?_, ?_, ?_⟩
  · unfold process_measurement
    rw [if_pos hd]
  · exact spec_c4 factor p0 500 (by decide) (by decide)
  · unfold process_measurement
    rw [if_pos (by omega)]
  · unfold process_measurement
    rw [if_neg (by omega)]
    have hS : factor * 520 + (1000 - factor) * 500 < 2 ^ 32 := by omega
    have hq : (factor * 520 + (1000 - factor) * 500) / 1000 < 2 ^ 16 := by
      omega
    unfold apply_ema_filter_int
    rw [if_neg (by simp)]
    simp only
    rw [Nat.mod_eq_of_lt hS, Nat.mod_eq_of_lt hq]

/-- Witness for C5 at `factor = 300`, an initialized filter state and the
out-of-range sample 5000 mm. -/
theorem spec_c5_witness :
    process_measurement 300 ⟨500, true⟩ 5000
      = (5000, .DISTANCE_SENSOR_OUT_OF_RANGE, ⟨500, true⟩) :=
  (spec_c5 300 ⟨500, true⟩ 5000 0 (by decide) (Or.inr (by decide))).1

/-! ## Claims C6, C7, C10: publish policy, timeout path, narrowing cast -/

/-- A fixed dummy reading used to instantiate witnesses. -/
def m0 : distance_measurement_t := ⟨0, 0, .DISTANCE_SENSOR_OK⟩

/-- Claim C6: publishing 6 readings into the capacity-5 processed channel with
no consumer leaves the overflow counter at 1 and the channel holding exactly
the 5 most recent readings in FIFO order; in general, on a full channel the
publish step evicts exactly one oldest entry, retries the enqueue once and
increments the overflow counter. -/
theorem spec_c6 (a b c d e f : distance_measurement_t) :
    publish_seq ([], 0) [a, b, c, d, e, f] = ([b, c, d, e, f], 1) ∧
    ∀ (q : List distance_measurement_t) (cnt : Nat)
      (m : distance_measurement_t), q.length = 5 →
      publish_processed q cnt m = (q.tail ++ [m], cnt + 1) :=
  ⟨rfl, fun q cnt m h => publish_processed_full q cnt m h⟩

/-- Witness for C6's full-queue clause on a concrete length-5 queue. -/
theorem spec_c6_witness :
    publish_processed [m0, m0, m0, m0, m0] 0 m0
      = ([m0, m0, m0, m0, m0].tail ++ [m0], 0 + 1) :=
  (spec_c6 m0 m0 m0 m0 m0 m0).2 [m0, m0, m0, m0, m0] 0 m0 rfl

/-- Claim C7: a cycle whose raw-queue wait times out leaves the EMA state
unchanged and publishes exactly one reading, with status `TIMEOUT` and
`distance_mm = 0`, to the processed queue under the same eviction-on-overflow
policy; and every cycle (timeout or not) publishes exactly one reading. -/
theorem spec_c7 (speed factor now : Nat) (st : TaskState)
    (h : st.queue.length ≤ 5) :
    (distance_sensor_cycle speed factor now st none).ema = st.ema ∧
    (distance_sensor_cycle speed factor now st none).queue =
      (if st.queue.length < 5 then
        st.queue ++ [⟨0, now, .DISTANCE_SENSOR_TIMEOUT⟩]
      else st.queue.tail ++ [⟨0, now, .DISTANCE_SENSOR_TIMEOUT⟩]) ∧
    ∀ input : Option distance_raw_measurement_t,
      ∃ m : distance_measurement_t,
        (distance_sensor_cycle speed factor now st input).queue =
          (if st.queue.length < 5 then st.queue ++ [m]
           else st.queue.tail ++ [m]) := by
  refine ⟨rfl, ?_, ?_⟩
  · show (publish_processed st.queue st.overflow
        ⟨0, now, .DISTANCE_SENSOR_TIMEOUT⟩).1 = _
    rw [publish_processed_le st.queue st.overflow _ h]
  · intro input
    cases input with
    | none =>
      refine ⟨⟨0, now, .DISTANCE_SENSOR_TIMEOUT⟩, ?_⟩
      show (publish_processed st.queue st.overflow
          ⟨0, now, .DISTANCE_SENSOR_TIMEOUT⟩).1 = _
      rw [publish_processed_le st.queue st.overflow _ h]
    | some raw_data =>
      refine ⟨⟨(process_measurement factor st.ema
          (compute_distance_mm speed raw_data)).1, raw_data.echo_end_us,
          (process_measurement factor st.ema
            (compute_distance_mm speed raw_data)).2.1⟩, ?_⟩
      show (publish_processed st.queue st.overflow _).1 = _
      rw [publish_processed_le st.queue st.overflow _ h]

/-- Witness for C7 on the empty initial task state. -/
theorem spec_c7_witness :
    (distance_sensor_cycle 343420 300 5 ⟨⟨0, false⟩, [], 0⟩ none).ema
      = (⟨⟨0, false⟩, [], 0⟩ : TaskState).ema :=
  (spec_c7 343420 300 5 ⟨⟨0, false⟩, [], 0⟩ (by decide)).1

/-- Claim C10 (implicit): the computed distance is the true integer quotient
`duration * speed / 2000000` reduced mod `2^16` by the narrowing cast to
`uint16_t`; consequently an echo long enough that the true distance exceeds
65535 mm wraps around and can land inside `[20, 4000]` mm, in which case the
reading gets status `OK` and is fed into the EMA filter.  Concretely, at
20.0 °C a 387500 µs echo has true distance 66537 mm but is reported as
1001 mm. -/
theorem spec_c10 :
    (∀ (speed : Nat) (raw : distance_raw_measurement_t),
      raw.echo_start_us ≤ raw.echo_end_us → raw.echo_end_us < 2 ^ 64 →
      (raw.echo_end_us - raw.echo_start_us) * speed < 2 ^ 64 →
      (raw.echo_end_us - raw.echo_start_us) * speed / 2000000 < 2 ^ 32 →
      compute_distance_mm speed raw =
        (raw.echo_end_us - raw.echo_start_us) * speed / 2000000 % 2 ^ 16) ∧
    calculate_speed_of_sound_scaled 200 = 343420 ∧
    387500 * 343420 / 2000000 = 66537 ∧ 66537 > 65535 ∧
    compute_distance_mm 343420 ⟨0, 387500, .DISTANCE_SENSOR_OK⟩ = 1001 ∧
    (20 ≤ 1001 ∧ 1001 ≤ 4000) ∧
    ∀ (factor : Nat) (ema : EmaState),
      process_measurement factor ema 1001 =
        ((apply_ema_filter_int factor ema 1001).1, .DISTANCE_SENSOR_OK,
         (apply_ema_filter_int factor ema 1001).2) := by
  refine ⟨?_, by decide, by decide, by decide, by decide, by decide, ?_⟩
  · intro speed raw h1 h2 h3 h4
    unfold compute_distance_mm
    simp only
    have hdur : raw.echo_end_us + 2 ^ 64 - raw.echo_start_us
        = raw.echo_end_us - raw.echo_start_us + 2 ^ 64 := by omega
    rw [hdur, Nat.add_mod_right,
      Nat.mod_eq_of_lt (show raw.echo_end_us - raw.echo_start_us < 2 ^ 64 by
        omega),
      Nat.mod_eq_of_lt h3, Nat.mod_eq_of_lt h4]
  · intro factor ema
    unfold process_measurement
    rw [if_neg (by omega)]

/-- Witness for C10's general clause at the concrete wrap-around input. -/
theorem spec_c10_witness :
    compute_distance_mm 343420 ⟨0, 387500, .DISTANCE_SENSOR_OK⟩ =
      ((387500 : Nat) - 0) * 343420 / 2000000 % 2 ^ 16 :=
  spec_c10.1 343420 ⟨0, 387500, .DISTANCE_SENSOR_OK⟩ (by decide) (by decide)
    (by decide) (by decide)

/-! ## LED controller: data model (`led_controller.c`)

The embedding models the post-initialization controller: `led_buffer` (the
working buffer), `led_buffer_snapshot` and `current_config.led_count`.  Both
buffers are allocated with `led_count` entries at `led_controller_init`, so
the theorems that need it carry `led_buffer.length = led_count` as a
hypothesis.  In the sequential operation model the snapshot mutex is free, so
`xSemaphoreTake` always succeeds. -/

/-- `led_color_t`: one pixel, `uint8_t` red/green/blue components. -/
structure led_color_t where
  red : Nat
  green : Nat
  blue : Nat
deriving DecidableEq, Repr

/-- `LED_COLOR_OFF = {0, 0, 0}`. -/
def LED_COLOR_OFF : led_color_t := ⟨0, 0, 0⟩

/-- `LED_COLOR_RED = {255, 0, 0}`. -/
def LED_COLOR_RED : led_color_t := ⟨255, 0, 0⟩

/-- The `esp_err_t` codes this core returns. -/
inductive esp_err_t where
  | ESP_OK
  | ESP_ERR_INVALID_ARG
  | ESP_ERR_INVALID_STATE
  | ESP_ERR_TIMEOUT
  | ESP_ERR_NO_MEM
  | ESP_FAIL
deriving DecidableEq, Repr

/-- LED controller state after successful `led_controller_init`: the working
buffer, the snapshot buffer and the configured LED count. -/
structure LedState where
  led_count : Nat
  led_buffer : List led_color_t
  led_buffer_snapshot : List led_color_t
deriving DecidableEq, Repr

/-- `led_set_pixel` (led_controller.c:278-293): bounds-checked write into the
working buffer; `index >= led_count` returns `ESP_ERR_INVALID_ARG` without
mutating anything. -/
def led_set_pixel (s : LedState) (index : Nat) (color : led_color_t) :
    esp_err_t × LedState :=
  if index ≥ s.led_count then
    (.ESP_ERR_INVALID_ARG, s)
  else
    (.ESP_OK, {s with led_buffer := s.led_buffer.set index color})

/-- `led_clear_all` (led_controller.c:310-323): sets every working-buffer
entry (indices `0 .. led_count-1`; the buffer has exactly `led_count`
entries) to `LED_COLOR_OFF`.  The snapshot is untouched. -/
def led_clear_all (s : LedState) : LedState :=
  {s with led_buffer := s.led_buffer.map fun _ => LED_COLOR_OFF}

/-- `led_show` (led_controller.c:325-369): serializes the working buffer and
transmits it; `tx_ok` abstracts the hardware outcome of `rmt_transmit`
followed by `rmt_tx_wait_all_done` (100 ms bound).  On success the working
buffer is copied into the snapshot under the snapshot mutex and `ESP_OK` is
returned; on failure or timeout the snapshot is left unchanged and the error
is returned to the caller (`ESP_ERR_TIMEOUT` standing for the failed
outcome). -/
def led_show (s : LedState) (tx_ok : Bool) : esp_err_t × LedState :=
  if tx_ok then
    (.ESP_OK, {s with led_buffer_snapshot := s.led_buffer})
  else
    (.ESP_ERR_TIMEOUT, s)

/-! ## Claim C8: set_pixel bounds checking -/

/-- Claim C8: for every initialized controller, `led_set_pixel` at any index
at or past `led_count` returns `ESP_ERR_INVALID_ARG` and leaves the state
(in particular every working-buffer entry) unchanged, while any index below
`led_count` writes the color at that index and returns `ESP_OK`. -/
theorem spec_c8 (s : LedState) (index : Nat) (color : led_color_t)
    (hlen : s.led_buffer.length = s.led_count) :
    (index ≥ s.led_count → led_set_pixel s index color
      = (.ESP_ERR_INVALID_ARG, s)) ∧
    (index < s.led_count →
      (led_set_pixel s index color).1 = .ESP_OK ∧
      (led_set_pixel s index color).2.led_buffer = s.led_buffer.set index color ∧
      ((led_set_pixel s index color).2.led_buffer)[index]? = some color ∧
      ∀ j, j ≠ index →
        ((led_set_pixel s index color).2.led_buffer)[j]?
          = s.led_buffer[j]?) := by
  constructor
  · intro hge
    unfold led_set_pixel
    rw [if_pos hge]
  · intro hlt
    unfold led_set_pixel
    rw [if_neg (by omega)]
    refine ⟨rfl, rfl, ?_, ?_⟩
    · simp only
      rw [List.getElem?_set_self]
      omega
    · intro j hj
      simp only
      rw [List.getElem?_set_ne hj.symm]

/-- Witness for C8: a one-LED controller rejects index 1 (one past the end)
untouched. -/
theorem spec_c8_witness :
    led_set_pixel ⟨1, [LED_COLOR_OFF], [LED_COLOR_OFF]⟩ 1 LED_COLOR_RED
      = (.ESP_ERR_INVALID_ARG, ⟨1, [LED_COLOR_OFF], [LED_COLOR_OFF]⟩) :=
  (spec_c8 ⟨1, [LED_COLOR_OFF], [LED_COLOR_OFF]⟩ 1 LED_COLOR_RED rfl).1
    (by decide)

/-! ## Claim C1: snapshot invariant over operation sequences -/

/-- Operations the animation/render path performs on the controller after
initialization.  A `show_op` carries the hardware transmission outcome. -/
inductive LedOp where
  | set_pixel (index : Nat) (color : led_color_t)
  | clear_all
  | show_op (tx_ok : Bool)
deriving DecidableEq, Repr

/-- State transition of one operation. -/
def led_apply (s : LedState) : LedOp → LedState
  | .set_pixel index color => (led_set_pixel s index color).2
  | .clear_all => led_clear_all s
  | .show_op tx_ok => (led_show s tx_ok).2

/-- Run a sequence of operations. -/
def led_run (s : LedState) : List LedOp → LedState
  | [] => s
  | op :: rest => led_run (led_apply s op) rest

/-- Spec-side ghost for the refinement: the working buffer contents a reader
of the spec predicts after a sequence of operations (`set_pixel` writes
in-bounds indices, `clear_all` turns every entry off, `show` never touches
the working buffer). -/
def working_spec (count : Nat) (work : List led_color_t) :
    List LedOp → List led_color_t
  | [] => work
  | .set_pixel index color :: rest =>
    working_spec count (if index < count then work.set index color else work)
      rest
  | .clear_all :: rest =>
    working_spec count (work.map fun _ => LED_COLOR_OFF) rest
  | .show_op _ :: rest => working_spec count work rest

/-- Spec-side ghost for the refinement, following the spec's invariant
wording: the snapshot is the working buffer as of the most recent `show`
whose transmission succeeded (unchanged by a failed `show`). -/
def snapshot_spec (count : Nat) (work snap : List led_color_t) :
    List LedOp → List led_color_t
  | [] => snap
  | .set_pixel index color :: rest =>
    snapshot_spec count (if index < count then work.set index color else work)
      snap rest
  | .clear_all :: rest =>
    snapshot_spec count (work.map fun _ => LED_COLOR_OFF) snap rest
  | .show_op true :: rest => snapshot_spec count work work rest
  | .show_op false :: rest => snapshot_spec count work snap rest

/-- The implementation refines the two ghosts: running any operation sequence
keeps the configured count and produces exactly the spec-predicted working
buffer and snapshot. -/
lemma led_run_spec (ops : List LedOp) : ∀ s : LedState,
    (led_run s ops).led_count = s.led_count ∧
    (led_run s ops).led_buffer = working_spec s.led_count s.led_buffer ops ∧
    (led_run s ops).led_buffer_snapshot
      = snapshot_spec s.led_count s.led_buffer s.led_buffer_snapshot ops := by
  induction ops with
  | nil => intro s; exact ⟨rfl, rfl, rfl⟩
  | cons op rest ih =>
    intro s
    cases op with
    | set_pixel index color =>
      simp only [led_run, led_apply, led_set_pixel, working_spec,
        snapshot_spec]
      by_cases hc : index < s.led_count
      · rw [if_neg (show ¬index ≥ s.led_count by omega), if_pos hc]
        exact ih {s with led_buffer := s.led_buffer.set index color}
      · rw [if_pos (show index ≥ s.led_count by omega), if_neg hc]
        exact ih s
    | clear_all =>
      simp only [led_run, led_apply, led_clear_all, working_spec,
        snapshot_spec]
      exact ih {s with led_buffer := s.led_buffer.map fun _ => LED_COLOR_OFF}
    | show_op tx_ok =>
      cases tx_ok with
      | true =>
        simp only [led_run, led_apply, led_show, working_spec, snapshot_spec,
          if_true]
        exact ih {s with led_buffer_snapshot := s.led_buffer}
      | false =>
        simp only [led_run, led_apply, led_show, working_spec, snapshot_spec,
          if_false]
        exact ih s

/-- Claim C1: over every operation sequence from any post-initialization
state, the snapshot equals the spec-predicted "working buffer as of the most
recent successful show"; a `led_show` whose transmission fails leaves the
snapshot (indeed the whole state) unchanged and surfaces an error, and a
successful `led_show` makes the snapshot equal to the working buffer at that
moment. -/
theorem spec_c1 (s : LedState) (ops : List LedOp) :
    (led_run s ops).led_buffer_snapshot
      = snapshot_spec s.led_count s.led_buffer s.led_buffer_snapshot ops ∧
    (∀ t : LedState,
      (led_show t false).2 = t ∧ (led_show t false).1 ≠ .ESP_OK) ∧
    (∀ t : LedState,
      (led_show t true).1 = .ESP_OK ∧
      (led_show t true).2.led_buffer_snapshot = t.led_buffer ∧
      (led_show t true).2.led_buffer = t.led_buffer) :=
  ⟨(led_run_spec ops s).2.2,
   fun t => ⟨rfl, by simp [led_show]⟩,
   fun t => ⟨rfl, rfl, rfl⟩⟩

/-! ## Claim C9: wire serialization and bit-level protocol encoding -/

/-- `led_show`'s data-buffer construction (led_controller.c:332-346): 3 bytes
per LED, pixel `i` at byte offsets `3i .. 3i+2` in GRB order. -/
def led_frame_bytes : List led_color_t → List Nat
  | [] => []
  | p :: rest => p.green :: p.red :: p.blue :: led_frame_bytes rest

/-- WS2812 timing constants in RMT ticks at 80 MHz (led_controller.c:22-25). -/
def WS2812_T0H_TICKS : Nat := 32

/-- 0.8 µs low for bit 0. -/
def WS2812_T0L_TICKS : Nat := 64

/-- 0.8 µs high for bit 1. -/
def WS2812_T1H_TICKS : Nat := 64

/-- 0.4 µs low for bit 1. -/
def WS2812_T1L_TICKS : Nat := 32

/-- One RMT symbol: a two-phase pulse, `level0` held for `duration0` ticks
then `level1` for `duration1` ticks. -/
structure RmtSymbol where
  level0 : Nat
  duration0 : Nat
  level1 : Nat
  duration1 : Nat
deriving DecidableEq, Repr

/-- The symbol the encoder emits for one bit, per the `bit0`/`bit1` entries of
`rmt_bytes_encoder_config_t` in `rmt_new_led_strip_encoder`
(led_controller.c:65-85): high then low, with the high/low durations swapped
between bit values. -/
def bit_symbol (bit : Bool) : RmtSymbol :=
  if bit then ⟨1, WS2812_T1H_TICKS, 0, WS2812_T1L_TICKS⟩
  else ⟨1, WS2812_T0H_TICKS, 0, WS2812_T0L_TICKS⟩

/-- Modelled from the spec: the byte-to-symbol serializer itself is ESP-IDF's
`rmt_bytes_encoder`, which is not part of this repository; per its contract
with `flags.msb_first = 1` (led_controller.c:81) each byte is emitted as 8
symbols, most significant bit first, each bit mapped through the configured
`bit0`/`bit1` symbols. -/
def byte_symbols (b : Nat) : List RmtSymbol :=
  (List.range 8).map fun k => bit_symbol (b.testBit (7 - k))

/-- The full wire symbol stream `led_show` hands to the RMT peripheral. -/
def led_wire_symbols (buf : List led_color_t) : List RmtSymbol :=
  ((led_frame_bytes buf).map byte_symbols).flatten

/-- Reads a symbol stream back as a binary number, first symbol most
significant; recovering the byte shows the emission order is MSB-first. -/
def decode_symbols (l : List RmtSymbol) : Nat :=
  l.foldl (fun acc s => 2 * acc + (if s = bit_symbol true then 1 else 0)) 0

/-- The byte stream has exactly 3 bytes per pixel. -/
lemma led_frame_bytes_length (buf : List led_color_t) :
    (led_frame_bytes buf).length = 3 * buf.length := by
  induction buf with
  | nil => rfl
  | cons p rest ih =>
    simp only [led_frame_bytes, List.length_cons, ih]
    omega

/-- Pixel `i`'s bytes sit at offsets `3i, 3i+1, 3i+2`, in GRB order. -/
lemma led_frame_bytes_drop : ∀ (buf : List led_color_t) (i : Nat)
    (h : i < buf.length),
    (led_frame_bytes buf).drop (3 * i) =
      (buf.get ⟨i, h⟩).green :: (buf.get ⟨i, h⟩).red ::
        (buf.get ⟨i, h⟩).blue :: led_frame_bytes (buf.drop (i + 1)) := by
  intro buf
  induction buf with
  | nil => intro i h; simp at h
  | cons p rest ih =>
    intro i h
    cases i with
    | zero => simp [led_frame_bytes]
    | succ j =>
      have hj : j < rest.length := by
        simp only [List.length_cons] at h
        omega
      have harith : 3 * (j + 1) = 3 * j + 1 + 1 + 1 := by ring
      rw [harith]
      simp only [led_frame_bytes, List.drop_succ_cons]
      rw [ih j hj]
      rfl

/-- The symbol stream has exactly 8 symbols per byte. -/
lemma wire_symbols_length : ∀ bytes : List Nat,
    ((bytes.map byte_symbols).flatten).length = 8 * bytes.length := by
  intro bytes
  induction bytes with
  | nil => rfl
  | cons b rest ih =>
    have h8 : (byte_symbols b).length = 8 := by
      simp [byte_symbols]
    simp only [List.map_cons, List.flatten_cons, List.length_append, ih,
      List.length_cons, h8]
    omega

set_option maxRecDepth 8192 in
/-- Claim C9: `led_show` serializes an `n`-pixel working buffer into exactly
`3n` wire bytes with pixel `i` occupying bytes `3i..3i+2` in GRB order; each
byte becomes 8 two-phase symbols emitted most-significant-bit first (decoding
the 8 symbols MSB-first recovers the byte), bits 0 and 1 using distinct fixed
high/low tick durations (32/64 for `0`, 64/32 for `1`), high phase first. -/
theorem spec_c9 (buf : List led_color_t) (i : Nat) (h : i < buf.length) :
    (led_frame_bytes buf).length = 3 * buf.length ∧
    (led_frame_bytes buf).drop (3 * i) =
      (buf.get ⟨i, h⟩).green :: (buf.get ⟨i, h⟩).red ::
        (buf.get ⟨i, h⟩).blue :: led_frame_bytes (buf.drop (i + 1)) ∧
    (led_wire_symbols buf).length = 24 * buf.length ∧
    (∀ b, b < 256 →
      (byte_symbols b).length = 8 ∧ decode_symbols (byte_symbols b) = b) ∧
    bit_symbol false = ⟨1, 32, 0, 64⟩ ∧
    bit_symbol true = ⟨1, 64, 0, 32⟩ ∧
    bit_symbol false ≠ bit_symbol true := by
  refine ⟨led_frame_bytes_length buf, led_frame_bytes_drop buf i h, ?_,
    by decide, by decide, by decide, by decide⟩
  unfold led_wire_symbols
  rw [wire_symbols_length, led_frame_bytes_length]
  ring

/-- Witness for C9 on a concrete two-pixel buffer at index 1. -/
theorem spec_c9_witness :
    (led_frame_bytes [⟨10, 20, 30⟩, ⟨1, 2, 3⟩]).length
      = 3 * ([⟨10, 20, 30⟩, ⟨1, 2, 3⟩] : List led_color_t).length :=
  (spec_c9 [⟨10, 20, 30⟩, ⟨1, 2, 3⟩] 1 (by decide)).1
